import Mathlib

/-!
Verification of the DSNP SDK announcement model and batch codec.

This file gives a shallow embedding of the announcement serializer
(src/core/messages/messages.ts), the batch writer/reader
(src/core/batch, createFile / writeBatch / readFile / includes), the
parquet schema selector (specified by src/core/batch/parquetSchema.test.ts)
and the structural announcement validators (announcements/validation), and
proves the stated properties about them.

JavaScript objects are modelled as association lists, asynchronous
iterables as lists, and thrown exceptions as Except values.  External
collaborators (the keccak hash, the parquet row encoder, the content
store) are modelled as explicit function parameters or, where the spec
pins their behaviour down, as definitions marked "Modelled from the spec".
-/

/-! ## Canonical serializer (src/core/messages/messages.ts) -/

/-- A field value of a DSNP message: the message records hold strings or
numbers, and template-literal interpolation stringifies numbers in
decimal. -/
inductive FieldValue where
  | vstr (s : String)
  | vnum (n : Nat)
deriving DecidableEq

/-- A DSNP message as a JavaScript record: an association list of field
name and field value, in insertion order. -/
abbrev Message := List (String × FieldValue)

/-- Template-literal stringification used by serialize: strings unchanged,
numbers in decimal. -/
def stringifyField : FieldValue → String
  | FieldValue.vstr s => s
  | FieldValue.vnum n => toString n

/-- Lexicographic (code point) comparison of key character lists, the
order produced by the JavaScript Array.prototype.sort on string keys. -/
def charListLe : List Char → List Char → Bool
  | [], _ => true
  | _ :: _, [] => false
  | a :: as, b :: bs =>
    if a.toNat < b.toNat then true
    else if b.toNat < a.toNat then false
    else charListLe as bs

/-- Key order on message fields: compare the field names
lexicographically. -/
def msgKeyLe (a b : String × FieldValue) : Prop :=
  charListLe a.1.data b.1.data = true

instance : DecidableRel msgKeyLe :=
  fun a b => Bool.decEq (charListLe a.1.data b.1.data) true

/-- Modelled from the spec: sortObject (src/core/utilities/json.ts, not
under src/) returns the record with its keys sorted in lexicographic
order; embedded as an insertion sort by key. -/
def sortObject (message : Message) : Message :=
  List.insertionSort msgKeyLe message

/-- serialize() from src/core/messages/messages.ts: sort the message
fields by key and concatenate key followed by stringified value, with no
delimiters. -/
def serialize (message : Message) : String :=
  (sortObject message).foldl
    (fun serialization p => serialization ++ p.1 ++ stringifyField p.2) ""

/-- createBroadcastMessage() from src/core/messages/messages.ts: builds a
Broadcast message record with fields dsnpType = 2, contentHash, fromId
and url, in that insertion order. -/
def createBroadcastMessage (fromId url hash : String) : Message :=
  [("dsnpType", FieldValue.vnum 2),
   ("contentHash", FieldValue.vstr hash),
   ("fromId", FieldValue.vstr fromId),
   ("url", FieldValue.vstr url)]

/-- Delimiter-free concatenation of key and stringified value over a field
list, used to state what serialize produces. -/
def concatFields : List (String × FieldValue) → String
  | [] => ""
  | p :: rest => p.1 ++ stringifyField p.2 ++ concatFields rest

/-! ## Batch writer (createFile / writeBatch, src/core/batch/batch.ts) -/

/-- A signed announcement as consumed by the batch writer: the DSNP type
discriminant plus the remaining fields (including the signature), kept as
an association list of stringified values. -/
structure SignedAnnouncement where
  dsnpType : Nat
  fields : List (String × String)
deriving DecidableEq

/-- The errors thrown by the batch module: EmptyBatchError and
MixedTypeBatchError from batchErrors, and InvalidAnnouncementTypeError
from the schema selector. -/
inductive BatchError where
  | emptyBatch
  | mixedTypeBatch
  | invalidAnnouncementType (t : Nat)
deriving DecidableEq

/-- The loop body of writeBatch(): once the first DSNP type is fixed,
every announcement whose type differs aborts with MixedTypeBatchError;
otherwise the announcement is appended as one row, in stream order. -/
def writeBatchLoop (firstDsnpType : Nat) :
    List SignedAnnouncement → Except BatchError (List SignedAnnouncement)
  | [] => Except.ok []
  | a :: rest =>
    if a.dsnpType ≠ firstDsnpType then Except.error BatchError.mixedTypeBatch
    else
      match writeBatchLoop firstDsnpType rest with
      | Except.error e => Except.error e
      | Except.ok rows => Except.ok (a :: rows)

/-- writeBatch() from the batch module: an empty iterator throws
EmptyBatchError; otherwise the first element fixes the type and the loop
appends each announcement as a row.  The value returned is the list of
rows appended to the parquet writer, in order. -/
def writeBatch : List SignedAnnouncement → Except BatchError (List SignedAnnouncement)
  | [] => Except.error BatchError.emptyBatch
  | a :: rest => writeBatchLoop a.dsnpType (a :: rest)

/-- One interaction of the parquet writer with the write stream: a write()
call carrying a chunk, an end() call carrying a final chunk, or an end()
call carrying no data.  Chunks are byte lists (Uint8Array). -/
inductive SinkEvent where
  | writeChunk (chunk : List Nat)
  | endWithChunk (chunk : List Nat)
  | endPlain
deriving DecidableEq

/-- The hashing write stream wrapper built inside createFile(): every
write() chunk is fed to the hash accumulator and forwarded to the inner
stream; an end() carrying a Uint8Array feeds it to the hash accumulator
and forwards it; an end() without data forwards nothing.  Returns the
pair (bytes fed to the hash accumulator, bytes passed to the underlying
sink), each in arrival order. -/
def runHashingStream : List SinkEvent → List Nat × List Nat
  | [] => ([], [])
  | e :: rest =>
    let (h, s) := runHashingStream rest
    match e with
    | SinkEvent.writeChunk c => (c ++ h, c ++ s)
    | SinkEvent.endWithChunk c => (c ++ h, c ++ s)
    | SinkEvent.endPlain => (h, s)

/-- The content store, modelled from src/test/testStore.ts: a list of
(path, content) entries, most recent first. -/
abbrev Store := List (String × List Nat)

/-- The BatchFileData returned by createFile(): the store URL and the hex
content hash. -/
structure BatchFileData where
  url : String
  hash : String
deriving DecidableEq

/-- The parquet primitive column types used by the batch schemas. -/
inductive ParquetType where
  | INT32
  | BYTE_ARRAY
deriving DecidableEq

/-- A batch schema: field name to primitive type, in declaration order. -/
abbrev Schema := List (String × ParquetType)

/-- Modelled from the spec: getSchemaFor (src/core/batch/parquetSchema.ts,
not under src/; pinned by src/core/batch/parquetSchema.test.ts) maps each
of the five signable announcement types to its fixed column schema and
throws InvalidAnnouncementTypeError for every other discriminant. -/
def getSchemaFor (t : Nat) : Except BatchError Schema :=
  if t = 1 then
    Except.ok [("changeType", ParquetType.INT32), ("dsnpType", ParquetType.INT32),
               ("fromId", ParquetType.BYTE_ARRAY), ("signature", ParquetType.BYTE_ARRAY)]
  else if t = 2 then
    Except.ok [("dsnpType", ParquetType.INT32), ("contentHash", ParquetType.BYTE_ARRAY),
               ("fromId", ParquetType.BYTE_ARRAY), ("url", ParquetType.BYTE_ARRAY),
               ("signature", ParquetType.BYTE_ARRAY)]
  else if t = 3 then
    Except.ok [("dsnpType", ParquetType.INT32), ("contentHash", ParquetType.BYTE_ARRAY),
               ("fromId", ParquetType.BYTE_ARRAY), ("inReplyTo", ParquetType.BYTE_ARRAY),
               ("url", ParquetType.BYTE_ARRAY), ("signature", ParquetType.BYTE_ARRAY)]
  else if t = 4 then
    Except.ok [("dsnpType", ParquetType.INT32), ("emoji", ParquetType.BYTE_ARRAY),
               ("fromId", ParquetType.BYTE_ARRAY), ("inReplyTo", ParquetType.BYTE_ARRAY),
               ("signature", ParquetType.BYTE_ARRAY)]
  else if t = 5 then
    Except.ok [("dsnpType", ParquetType.INT32), ("fromId", ParquetType.BYTE_ARRAY),
               ("url", ParquetType.BYTE_ARRAY), ("signature", ParquetType.BYTE_ARRAY)]
  else Except.error (BatchError.invalidAnnouncementType t)

/-- Modelled from the spec: getBloomFilterOptionsFor (same missing source
file, pinned by the same test) maps each of the five signable types to
the ordered list of bloom-filtered column names and throws
InvalidAnnouncementTypeError for every other discriminant. -/
def getBloomFilterOptionsFor (t : Nat) : Except BatchError (List String) :=
  if t = 1 then Except.ok ["fromId"]
  else if t = 2 then Except.ok ["fromId"]
  else if t = 3 then Except.ok ["fromId", "inReplyTo"]
  else if t = 4 then Except.ok ["emoji", "fromId", "inReplyTo"]
  else if t = 5 then Except.ok ["fromId"]
  else Except.error (BatchError.invalidAnnouncementType t)

/-- createFile() from the batch module: peek the first announcement (an
empty iterator throws EmptyBatchError before the store is touched),
resolve schema and bloom filter options for its type, then stream the
batch through the hashing write stream into store.putStream and return
the store URL plus the hex digest of the accumulated bytes.  The keccak
hex digest (js-sha3, external) is the parameter hashHex; the parquet
chunk encoder (parquetjs, external) is the parameter parquetEmit, a
function of the appended rows. -/
def createFile (hashHex : List Nat → String)
    (parquetEmit : List SignedAnnouncement → List SinkEvent)
    (targetPath : String) (announcements : List SignedAnnouncement)
    (store : Store) : Except BatchError BatchFileData × Store :=
  match announcements with
  | [] => (Except.error BatchError.emptyBatch, store)
  | first :: _ =>
    match getSchemaFor first.dsnpType, getBloomFilterOptionsFor first.dsnpType with
    | Except.error e, _ => (Except.error e, store)
    | _, Except.error e => (Except.error e, store)
    | Except.ok _, Except.ok _ =>
      match writeBatch announcements with
      | Except.error e => (Except.error e, store)
      | Except.ok rows =>
        let tap := runHashingStream (parquetEmit rows)
        (Except.ok { url := "http://fakestore.org/" ++ targetPath, hash := hashHex tap.1 },
         (targetPath, tap.2) :: store)

/-! ## Batch reader (readFile / includes, src/core/batch/batch.ts) -/

/-- readFile() from the batch module: pull rows from the reader cursor
one at a time until the cursor is exhausted, visiting them in storage
order; returns the visited rows in visit order.  The parquet row decoder
is modelled from the spec: the reader of a written batch holds exactly
the rows the writer appended. -/
def readFileRows : List SignedAnnouncement → List SignedAnnouncement
  | [] => []
  | record :: rest => record :: readFileRows rest

/-- A split-block bloom filter as exposed by the parquet reader, modelled
from the spec: check() returns true for every value that was inserted and
may additionally return true on arbitrary other values (the false
positive noise). -/
structure SBBF where
  inserted : List String
  noise : String → Bool

/-- The membership probe of one bloom filter block. -/
def SBBF.check (f : SBBF) (v : String) : Bool :=
  f.inserted.contains v || f.noise v

/-- One bloom filter block returned by reader.getBloomFilters, as consumed
by includes(). -/
structure BloomFilterData where
  sbbf : SBBF
  columnName : String
  rowGroupIndex : Nat

/-- includes() from the batch module: fetch all bloom filter blocks for
the column and OR their check() results; an unindexed column yields the
empty block list and so the answer false. -/
def includes (bloomFilterData : String → List BloomFilterData)
    (column : String) (item : String) : Bool :=
  (bloomFilterData column).any (fun data => data.sbbf.check item)

/-- The value of one column of a row: lookup in the announcement fields. -/
def columnValue (row : SignedAnnouncement) (c : String) : Option String :=
  row.fields.lookup c

/-- Modelled from the spec: the bloom filter blocks of a written batch.
The rows are split into row groups; for each indexed column every row
group contributes one block into which the column value of each of its
rows was inserted; unindexed columns have no blocks. -/
def buildFilters (groups : List (List SignedAnnouncement)) (cols : List String)
    (noise : String → Bool) : String → List BloomFilterData :=
  fun c =>
    if c ∈ cols then
      groups.map (fun g =>
        { sbbf := { inserted := g.filterMap (fun row => columnValue row c), noise := noise },
          columnName := c, rowGroupIndex := 0 })
    else []

/-! ## Announcement validation (src/core/announcements/validation.ts) -/

/-- A JavaScript runtime value, as far as the validators inspect one. -/
inductive JSValue where
  | str (s : String)
  | num (n : Int)
  | obj (fields : List (String × JSValue))
  | boolv (b : Bool)
  | nullv
  | undef

/-- Property access obj[key]: the first binding of the key in a record,
undefined when the key is absent or the value is not a record. -/
def getField (v : JSValue) (key : String) : JSValue :=
  match v with
  | JSValue.obj fields =>
    match fields.lookup key with
    | some x => x
    | none => JSValue.undef
  | _ => JSValue.undef

/-- isRecord from utilities/validation: the value is an object. -/
def isRecord : JSValue → Bool
  | JSValue.obj _ => true
  | _ => false

/-- isString from utilities/validation. -/
def isString : JSValue → Bool
  | JSValue.str _ => true
  | _ => false

/-- isNumber from utilities/validation. -/
def isNumber : JSValue → Bool
  | JSValue.num _ => true
  | _ => false

/-- A hexadecimal digit as matched by [0-9a-f] with the i flag. -/
def isHexDigit (c : Char) : Bool :=
  (decide ('0' ≤ c) && decide (c ≤ '9')) ||
  (decide ('a' ≤ c) && decide (c ≤ 'f')) ||
  (decide ('A' ≤ c) && decide (c ≤ 'F'))

/-- SIGNATURE_REGEX test: the string matches 0x followed by exactly 130
hexadecimal digits, all case-insensitively (the i flag also covers the
letter x of the prefix). -/
def matchesSignatureRegex (s : String) : Bool :=
  match s.data with
  | c0 :: c1 :: rest =>
    c0 == '0' && (c1 == 'x' || c1 == 'X') && rest.length == 130 && rest.all isHexDigit
  | _ => false

/-- isValidSignature from validation.ts: a string matching
SIGNATURE_REGEX. -/
def isValidSignature (v : JSValue) : Bool :=
  match v with
  | JSValue.str s => matchesSignatureRegex s
  | _ => false

/-- A code point inside the EMOJI_REGEX character class: the ranges
U+2000 to U+2BFF, U+E000 to U+FFFF and U+1F000 to U+FFFFF. -/
def isEmojiChar (c : Char) : Bool :=
  (0x2000 ≤ c.toNat && c.toNat ≤ 0x2BFF) ||
  (0xE000 ≤ c.toNat && c.toNat ≤ 0xFFFF) ||
  (0x1F000 ≤ c.toNat && c.toNat ≤ 0xFFFFF)

/-- isValidEmoji from validation.ts: a string matching EMOJI_REGEX, which
requires one or more code points all inside the emoji ranges. -/
def isValidEmoji (v : JSValue) : Bool :=
  match v with
  | JSValue.str s => !s.data.isEmpty && s.data.all isEmojiChar
  | _ => false

/-- Modelled from the spec: isDSNPUserId (src/core/identifiers.ts, not
under src/) checks the fixed-format user identifier, a dsnp:// URI whose
tail is a nonempty run of decimal digits. -/
def isDSNPUserId (v : JSValue) : Bool :=
  match v with
  | JSValue.str s =>
    match s.data with
    | 'd' :: 's' :: 'n' :: 'p' :: ':' :: '/' :: '/' :: rest =>
      !rest.isEmpty && rest.all Char.isDigit
    | _ => false
  | _ => false

/-- Modelled from the spec: isDSNPAnnouncementURI (same missing source
file) checks the announcement reference identifier, a dsnp:// URI holding
the user id, a slash, and a 0x-prefixed 64 digit hexadecimal content
identifier. -/
def isDSNPAnnouncementURI (v : JSValue) : Bool :=
  match v with
  | JSValue.str s =>
    match s.data with
    | 'd' :: 's' :: 'n' :: 'p' :: ':' :: '/' :: '/' :: rest =>
      let userPart := rest.takeWhile (fun c => c ≠ '/')
      (!userPart.isEmpty && userPart.all Char.isDigit) &&
      (match rest.dropWhile (fun c => c ≠ '/') with
       | '/' :: '0' :: 'x' :: hex => hex.length == 64 && hex.all isHexDigit
       | _ => false)
    | _ => false
  | _ => false

/-- isGraphChangeType from validation.ts: the number 1 (Follow) or 2
(Unfollow). -/
def isGraphChangeType (v : JSValue) : Bool :=
  match v with
  | JSValue.num n => n == 1 || n == 2
  | _ => false

/-- isAnnouncementType from validation.ts: one of the six enumerated
AnnouncementType values, Tombstone = 0 through Profile = 5. -/
def isAnnouncementType (v : JSValue) : Bool :=
  match v with
  | JSValue.num n => n == 0 || n == 1 || n == 2 || n == 3 || n == 4 || n == 5
  | _ => false

/-- The discriminant check obj[announcementType] != n of the per-variant
validators, for a numeric expected value. -/
def hasAnnouncementType (obj : JSValue) (n : Int) : Bool :=
  match getField obj "announcementType" with
  | JSValue.num m => m == n
  | _ => false

/-- isTombstoneAnnouncement from validation.ts: unlike the other variant
validators it throws a descriptive AnnouncementError at each failing
check and returns true otherwise. -/
def isTombstoneAnnouncement (obj : JSValue) : Except String Bool :=
  if !isRecord obj then Except.error "Announcement is not an object"
  else if !hasAnnouncementType obj 0 then Except.error "Announcement is not tombstone"
  else if !isDSNPUserId (getField obj "fromId") then
    Except.error "Announcement has invalid fromId"
  else if !isNumber (getField obj "createdAt") then
    Except.error "Announcement has invalid createdAt"
  else if !isAnnouncementType (getField obj "targetAnnouncementType") then
    Except.error "Announcement has invalid target type"
  else if !(match getField obj "targetAnnouncementType" with
       | JSValue.num m => m == 2 || m == 3 || m == 4
       | _ => false) then
    Except.error "Announcement has invalid target type"
  else if !isValidSignature (getField obj "targetSignature") then
    Except.error "Announcement has invalid target signature"
  else Except.ok true

/-- isGraphChangeAnnouncement from validation.ts: boolean checks in
source order, returning false at the first failure. -/
def isGraphChangeAnnouncement (obj : JSValue) : Bool :=
  if !isRecord obj then false
  else if !hasAnnouncementType obj 1 then false
  else if !isDSNPUserId (getField obj "fromId") then false
  else if !isGraphChangeType (getField obj "changeType") then false
  else if !isDSNPUserId (getField obj "objectId") then false
  else if !isNumber (getField obj "createdAt") then false
  else true

/-- isBroadcastAnnouncement from validation.ts: boolean checks in source
order, returning false at the first failure. -/
def isBroadcastAnnouncement (obj : JSValue) : Bool :=
  if !isRecord obj then false
  else if !hasAnnouncementType obj 2 then false
  else if !isDSNPUserId (getField obj "fromId") then false
  else if !isString (getField obj "url") then false
  else if !isString (getField obj "contentHash") then false
  else true

/-- isReplyAnnouncement from validation.ts. -/
def isReplyAnnouncement (obj : JSValue) : Bool :=
  if !isRecord obj then false
  else if !hasAnnouncementType obj 3 then false
  else if !isDSNPUserId (getField obj "fromId") then false
  else if !isString (getField obj "url") then false
  else if !isString (getField obj "contentHash") then false
  else if !isDSNPAnnouncementURI (getField obj "inReplyTo") then false
  else true

/-- isReactionAnnouncement from validation.ts. -/
def isReactionAnnouncement (obj : JSValue) : Bool :=
  if !isRecord obj then false
  else if !hasAnnouncementType obj 4 then false
  else if !isDSNPUserId (getField obj "fromId") then false
  else if !isValidEmoji (getField obj "emoji") then false
  else if !isDSNPAnnouncementURI (getField obj "inReplyTo") then false
  else true

/-- isProfileAnnouncement from validation.ts. -/
def isProfileAnnouncement (obj : JSValue) : Bool :=
  if !isRecord obj then false
  else if !hasAnnouncementType obj 5 then false
  else if !isDSNPUserId (getField obj "fromId") then false
  else if !isString (getField obj "url") then false
  else if !isString (getField obj "contentHash") then false
  else true

/-- isAnnouncement from validation.ts: require a record whose
announcementType is one of the enumerated values (returning false
otherwise), then dispatch on the discriminant to the per-variant
validator; the Tombstone branch can throw. -/
def isAnnouncement (obj : JSValue) : Except String Bool :=
  if !isRecord obj then Except.ok false
  else if !isAnnouncementType (getField obj "announcementType") then Except.ok false
  else
    match getField obj "announcementType" with
    | JSValue.num 0 => isTombstoneAnnouncement obj
    | JSValue.num 1 => Except.ok (isGraphChangeAnnouncement obj)
    | JSValue.num 2 => Except.ok (isBroadcastAnnouncement obj)
    | JSValue.num 3 => Except.ok (isReplyAnnouncement obj)
    | JSValue.num 4 => Except.ok (isReactionAnnouncement obj)
    | JSValue.num 5 => Except.ok (isProfileAnnouncement obj)
    | _ => Except.ok false

/-- isSignedAnnouncement from validation.ts: require a record, then a
signature field matching SIGNATURE_REGEX, then structural validation of
the payload by isAnnouncement. -/
def isSignedAnnouncement (obj : JSValue) : Except String Bool :=
  if !isRecord obj then Except.ok false
  else if !isValidSignature (getField obj "signature") then Except.ok false
  else isAnnouncement obj

/-! ## Order facts for the key comparison, and concrete sample values -/

instance : IsTotal (String × FieldValue) msgKeyLe where
  total a b := by
    show charListLe a.1.data b.1.data = true ∨ charListLe b.1.data a.1.data = true
    generalize a.1.data = as
    generalize b.1.data = bs
    induction as generalizing bs with
    | nil => exact Or.inl rfl
    | cons x xs ih =>
      cases bs with
      | nil => exact Or.inr rfl
      | cons y ys =>
        simp only [charListLe]
        rcases Nat.lt_trichotomy x.toNat y.toNat with h | h | h
        · left
          simp [h]
        · have h1 : ¬ x.toNat < y.toNat := by omega
          have h2 : ¬ y.toNat < x.toNat := by omega
          rcases ih ys with h3 | h3
          · left
            simp [h1, h2, h3]
          · right
            simp [h1, h2, h3]
        · right
          simp [h, Nat.lt_asymm h]

instance : IsTrans (String × FieldValue) msgKeyLe where
  trans a b c hab hbc := by
    show charListLe a.1.data c.1.data = true
    have H : ∀ (as bs cs : List Char), charListLe as bs = true →
        charListLe bs cs = true → charListLe as cs = true := by
      intro as
      induction as with
      | nil => intro bs cs _ _; rfl
      | cons x xs ih =>
        intro bs cs h1 h2
        cases bs with
        | nil => simp [charListLe] at h1
        | cons y ys =>
          cases cs with
          | nil => simp [charListLe] at h2
          | cons z zs =>
            simp only [charListLe] at h1 h2 ⊢
            by_cases hxy : x.toNat < y.toNat
            · by_cases hyz : y.toNat < z.toNat
              · simp [Nat.lt_trans hxy hyz]
              · by_cases hzy : z.toNat < y.toNat
                · simp [hyz, hzy] at h2
                · have hxz : x.toNat < z.toNat := by omega
                  simp [hxz]
            · by_cases hyx : y.toNat < x.toNat
              · simp [hxy, hyx] at h1
              · simp [hxy, hyx] at h1
                by_cases hyz : y.toNat < z.toNat
                · have hxz : x.toNat < z.toNat := by omega
                  simp [hxz]
                · by_cases hzy : z.toNat < y.toNat
                  · simp [hyz, hzy] at h2
                  · simp [hyz, hzy] at h2
                    have hxz : ¬ x.toNat < z.toNat := by omega
                    have hzx : ¬ z.toNat < x.toNat := by omega
                    simp [hxz, hzx]
                    exact ih ys zs h1 h2
    exact H a.1.data b.1.data c.1.data hab hbc

/-- A concrete stand-in for the external keccak hex digest, used only to
instantiate the hash parameter in witnesses. -/
def c4HashFn : List Nat → String := fun bytes => toString bytes

/-- A concrete stand-in for the external parquet chunk encoder, used only
to instantiate the encoder parameter in witnesses. -/
def c4Emit : List SignedAnnouncement → List SinkEvent :=
  fun _ => [SinkEvent.writeChunk [1, 2], SinkEvent.endWithChunk [3]]

/-- A sample signed Broadcast row. -/
def sampleBroadcastRow : SignedAnnouncement :=
  { dsnpType := 2, fields := [("fromId", "1")] }

/-- A second sample signed Broadcast row with a different author. -/
def sampleBroadcastRow2 : SignedAnnouncement :=
  { dsnpType := 2, fields := [("fromId", "2")] }

/-- A sample signed GraphChange row, of a different DSNP type. -/
def sampleGraphChangeRow : SignedAnnouncement :=
  { dsnpType := 1, fields := [("fromId", "3")] }

/-- A record with no signature field at all. -/
def c8NoSignature : JSValue :=
  JSValue.obj [("announcementType", JSValue.num 2)]

/-- A record whose announcementType discriminant 7 is outside the
enumerated set. -/
def c9UnknownType : JSValue :=
  JSValue.obj [("announcementType", JSValue.num 7), ("fromId", JSValue.str "dsnp://1")]

/-- A malformed Broadcast record: the discriminant is right but fromId is
a number, not a user id. -/
def c9BadBroadcast : JSValue :=
  JSValue.obj [("announcementType", JSValue.num 2), ("fromId", JSValue.num 42),
               ("url", JSValue.str "https://example.org"),
               ("contentHash", JSValue.str "0x0")]

/-- A malformed Tombstone record: the discriminant is right but fromId is
not a user id. -/
def c9BadTombstone : JSValue :=
  JSValue.obj [("announcementType", JSValue.num 0), ("fromId", JSValue.str "123")]

/-- A Reaction record that is valid in every field except its empty emoji
string. -/
def c10EmptyEmojiReaction : JSValue :=
  JSValue.obj [("announcementType", JSValue.num 4),
               ("fromId", JSValue.str "dsnp://123"),
               ("emoji", JSValue.str ""),
               ("inReplyTo", JSValue.str
                 "dsnp://123/0xaaaaaaaaaaaaaaaaaaaaaaaaaaaaaaaaaaaaaaaaaaaaaaaaaaaaaaaaaaaaaaaa")]

/-! ## Helper lemmas -/

theorem foldl_concatFields (l : List (String × FieldValue)) (acc : String) :
    l.foldl (fun s p => s ++ p.1 ++ stringifyField p.2) acc = acc ++ concatFields l := by
  induction l generalizing acc with
  | nil => simp [concatFields]
  | cons p rest ih =>
    rw [List.foldl_cons, ih, concatFields]
    simp only [String.append_assoc]

theorem serialize_eq_concatFields (m : Message) :
    serialize m = concatFields (sortObject m) := by
  unfold serialize
  rw [foldl_concatFields]
  exact String.empty_append _

theorem readFileRows_eq (rows : List SignedAnnouncement) :
    readFileRows rows = rows := by
  induction rows with
  | nil => rfl
  | cons r rest ih => simp [readFileRows, ih]

theorem writeBatchLoop_ok_of_homog (t : Nat) (l : List SignedAnnouncement)
    (h : ∀ b ∈ l, b.dsnpType = t) : writeBatchLoop t l = Except.ok l := by
  induction l with
  | nil => rfl
  | cons a rest ih =>
    have ha : a.dsnpType = t := h a (List.mem_cons_self a rest)
    have hrest : ∀ b ∈ rest, b.dsnpType = t := fun b hb => h b (List.mem_cons_of_mem a hb)
    simp [writeBatchLoop, ha, ih hrest]

theorem writeBatchLoop_ok (t : Nat) (l rows : List SignedAnnouncement)
    (h : writeBatchLoop t l = Except.ok rows) :
    rows = l ∧ ∀ b ∈ l, b.dsnpType = t := by
  induction l generalizing rows with
  | nil =>
    simp only [writeBatchLoop] at h
    cases h
    exact ⟨rfl, by simp⟩
  | cons a rest ih =>
    simp only [writeBatchLoop] at h
    by_cases ha : a.dsnpType = t
    · simp only [ha, ne_eq, not_true_eq_false, if_false] at h
      rcases hr : writeBatchLoop t rest with e | rows0
      · rw [hr] at h
        cases h
      · rw [hr] at h
        cases h
        rcases ih rows0 hr with ⟨heq, hall⟩
        subst heq
        refine ⟨rfl, ?_⟩
        intro b hb
        rcases List.mem_cons.mp hb with hb | hb
        · rw [hb]; exact ha
        · exact hall b hb
    · simp [ha] at h

theorem writeBatchLoop_error_of_mixed (t : Nat) (l : List SignedAnnouncement)
    (h : ∃ b ∈ l, b.dsnpType ≠ t) :
    writeBatchLoop t l = Except.error BatchError.mixedTypeBatch := by
  induction l with
  | nil => simp at h
  | cons a rest ih =>
    by_cases ha : a.dsnpType = t
    · have hrest : ∃ b ∈ rest, b.dsnpType ≠ t := by
        rcases h with ⟨b, hb, hbt⟩
        rcases List.mem_cons.mp hb with hbeq | hbm
        · exact absurd (hbeq ▸ ha) hbt
        · exact ⟨b, hbm, hbt⟩
      simp [writeBatchLoop, ha, ih hrest]
    · simp [writeBatchLoop, ha]

theorem runHashingStream_fst_eq_snd (events : List SinkEvent) :
    (runHashingStream events).1 = (runHashingStream events).2 := by
  induction events with
  | nil => rfl
  | cons e rest ih =>
    cases e <;> simp [runHashingStream, ih]

theorem createFile_ok_spec (hashHex : List Nat → String)
    (parquetEmit : List SignedAnnouncement → List SinkEvent)
    (targetPath : String) (announcements : List SignedAnnouncement)
    (store : Store) (bfd : BatchFileData) (store₂ : Store)
    (h : createFile hashHex parquetEmit targetPath announcements store =
      (Except.ok bfd, store₂)) :
    ∃ rows, writeBatch announcements = Except.ok rows ∧
      bfd.hash = hashHex (runHashingStream (parquetEmit rows)).1 ∧
      store₂ = (targetPath, (runHashingStream (parquetEmit rows)).2) :: store := by
  match announcements with
  | [] => simp [createFile] at h
  | first :: rest =>
    simp only [createFile] at h
    rcases hs : getSchemaFor first.dsnpType with e | s
    · rw [hs] at h
      simp at h
    · rcases hb : getBloomFilterOptionsFor first.dsnpType with e | c
      · rw [hs, hb] at h
        simp at h
      · rw [hs, hb] at h
        rcases hw : writeBatch (first :: rest) with e | rows
        · rw [hw] at h
          simp at h
        · rw [hw] at h
          simp only [Prod.mk.injEq, Except.ok.injEq] at h
          rcases h with ⟨hbfd, hst⟩
          exact ⟨rows, rfl, by rw [← hbfd], hst.symm⟩

/-! ## Claim theorems -/

/-- Claim C1: serialize concatenates each field name followed by its
stringified value, field names in lexicographic order, with no
delimiters; the broadcast example serializes to the stated literal; and
serialize is deterministic. -/
theorem serialize_sorted_concat_deterministic :
    serialize (createBroadcastMessage "1" "https://example.org/a" "0x12345") =
      "contentHash0x12345dsnpType2fromId1urlhttps://example.org/a" ∧
    (∀ m : Message, List.Sorted msgKeyLe (sortObject m) ∧
      List.Perm (sortObject m) m ∧
      serialize m = concatFields (sortObject m)) ∧
    (∀ m₁ m₂ : Message, m₁ = m₂ → serialize m₁ = serialize m₂) := by
  refine ⟨by decide, fun m => ⟨?_, ?_, serialize_eq_concatFields m⟩, fun m₁ m₂ h => h ▸ rfl⟩
  · exact List.sorted_insertionSort msgKeyLe m
  · exact List.perm_insertionSort msgKeyLe m

/-- Claim C1 witness: the determinism clause applied at a concrete
message. -/
theorem serialize_sorted_concat_deterministic_witness :
    serialize (createBroadcastMessage "1" "https://dsnp.org" "0x12345") =
      serialize (createBroadcastMessage "1" "https://dsnp.org" "0x12345") :=
  serialize_sorted_concat_deterministic.2.2 _ _ rfl

/-- Claim C2: createFile over an empty stream fails with EmptyBatchError
and leaves the store untouched, so nothing is retrievable at the
destination key. -/
theorem createFile_empty_stream_no_write :
    ∀ (hashHex : List Nat → String)
      (parquetEmit : List SignedAnnouncement → List SinkEvent)
      (targetPath : String) (store : Store),
      createFile hashHex parquetEmit targetPath [] store =
        (Except.error BatchError.emptyBatch, store) :=
  fun _ _ _ _ => rfl

/-- Claim C3: once the first element fixes the batch type, any later
element of a different type makes writeBatch abort with
MixedTypeBatchError, and a successfully written batch is always
type-homogeneous. -/
theorem writeBatch_mixed_type_aborts :
    ∀ (first : SignedAnnouncement) (rest : List SignedAnnouncement),
      ((∃ b ∈ rest, b.dsnpType ≠ first.dsnpType) →
        writeBatch (first :: rest) = Except.error BatchError.mixedTypeBatch) ∧
      (∀ rows, writeBatch (first :: rest) = Except.ok rows →
        ∀ b ∈ first :: rest, b.dsnpType = first.dsnpType) := by
  intro first rest
  constructor
  · intro h
    have hmix : ∃ b ∈ first :: rest, b.dsnpType ≠ first.dsnpType := by
      rcases h with ⟨b, hb, hbt⟩
      exact ⟨b, List.mem_cons_of_mem first hb, hbt⟩
    simpa [writeBatch] using writeBatchLoop_error_of_mixed first.dsnpType (first :: rest) hmix
  · intro rows h
    exact (writeBatchLoop_ok first.dsnpType (first :: rest) rows (by simpa [writeBatch] using h)).2

/-- Claim C3 witness: a two-element mixed stream aborts, and an ok result
on a homogeneous pair is type-homogeneous. -/
theorem writeBatch_mixed_type_aborts_witness :
    writeBatch [sampleBroadcastRow, sampleGraphChangeRow] =
      Except.error BatchError.mixedTypeBatch ∧
    ∀ b ∈ [sampleBroadcastRow, sampleBroadcastRow2],
      b.dsnpType = sampleBroadcastRow.dsnpType :=
  ⟨(writeBatch_mixed_type_aborts sampleBroadcastRow [sampleGraphChangeRow]).1
      ⟨sampleGraphChangeRow, by decide, by decide⟩,
   (writeBatch_mixed_type_aborts sampleBroadcastRow [sampleBroadcastRow2]).2
      [sampleBroadcastRow, sampleBroadcastRow2] rfl⟩

/-- Claim C4: every byte chunk passed to the destination sink is fed to
the hash accumulator and nothing else is; a successful createFile returns
the digest of exactly the bytes stored at the destination key; and two
successful writes of the same stream yield the same hash. -/
theorem createFile_hash_covers_sink_exactly :
    (∀ events : List SinkEvent,
      (runHashingStream events).1 = (runHashingStream events).2) ∧
    (∀ (hashHex : List Nat → String)
       (parquetEmit : List SignedAnnouncement → List SinkEvent)
       (targetPath : String) (announcements : List SignedAnnouncement)
       (store : Store) (bfd : BatchFileData) (store₂ : Store),
      createFile hashHex parquetEmit targetPath announcements store =
        (Except.ok bfd, store₂) →
      ∃ sunk, store₂ = (targetPath, sunk) :: store ∧ bfd.hash = hashHex sunk) ∧
    (∀ (hashHex : List Nat → String)
       (parquetEmit : List SignedAnnouncement → List SinkEvent)
       (targetPath : String) (announcements : List SignedAnnouncement)
       (s₁ s₂ : Store) (b₁ b₂ : BatchFileData) (t₁ t₂ : Store),
      createFile hashHex parquetEmit targetPath announcements s₁ = (Except.ok b₁, t₁) →
      createFile hashHex parquetEmit targetPath announcements s₂ = (Except.ok b₂, t₂) →
      b₁.hash = b₂.hash) := by
  refine ⟨runHashingStream_fst_eq_snd, ?_, ?_⟩
  · intro hashHex parquetEmit targetPath announcements store bfd store₂ h
    rcases createFile_ok_spec hashHex parquetEmit targetPath announcements store bfd store₂ h
      with ⟨rows, _, hhash, hst⟩
    exact ⟨(runHashingStream (parquetEmit rows)).2, hst,
      by rw [hhash, runHashingStream_fst_eq_snd]⟩
  · intro hashHex parquetEmit targetPath announcements s₁ s₂ b₁ b₂ t₁ t₂ h₁ h₂
    rcases createFile_ok_spec hashHex parquetEmit targetPath announcements s₁ b₁ t₁ h₁
      with ⟨rows₁, hw₁, hh₁, _⟩
    rcases createFile_ok_spec hashHex parquetEmit targetPath announcements s₂ b₂ t₂ h₂
      with ⟨rows₂, hw₂, hh₂, _⟩
    rw [hw₁] at hw₂
    cases hw₂
    rw [hh₁, hh₂]

/-- Claim C4 witness: a concrete successful createFile run, with the
clause about the stored bytes and hash instantiated there. -/
theorem createFile_hash_covers_sink_exactly_witness :
    ∃ sunk, ([("batch", [1, 2, 3])] : Store) = ("batch", sunk) :: ([] : Store) ∧
      (BatchFileData.mk "http://fakestore.org/batch" (c4HashFn [1, 2, 3])).hash =
        c4HashFn sunk :=
  createFile_hash_covers_sink_exactly.2.1 c4HashFn c4Emit "batch" [sampleBroadcastRow] []
    (BatchFileData.mk "http://fakestore.org/batch" (c4HashFn [1, 2, 3]))
    [("batch", [1, 2, 3])] rfl

/-- Claim C5: writing a homogeneous batch of n announcements succeeds
with exactly the input announcements as its rows, in input order, and
reading the file back visits exactly those n rows in order with the same
field values. -/
theorem writeBatch_readFile_round_trip :
    ∀ (first : SignedAnnouncement) (rest : List SignedAnnouncement),
      (∀ b ∈ first :: rest, b.dsnpType = first.dsnpType) →
      ∃ rows, writeBatch (first :: rest) = Except.ok rows ∧
        readFileRows rows = first :: rest ∧
        rows.length = (first :: rest).length := by
  intro first rest h
  refine ⟨first :: rest, ?_, readFileRows_eq _, rfl⟩
  simpa [writeBatch] using writeBatchLoop_ok_of_homog first.dsnpType (first :: rest) h

/-- Claim C5 witness: round trip on a concrete homogeneous pair. -/
theorem writeBatch_readFile_round_trip_witness :
    ∃ rows, writeBatch [sampleBroadcastRow, sampleBroadcastRow2] = Except.ok rows ∧
      readFileRows rows = [sampleBroadcastRow, sampleBroadcastRow2] ∧
      rows.length = [sampleBroadcastRow, sampleBroadcastRow2].length :=
  writeBatch_readFile_round_trip sampleBroadcastRow [sampleBroadcastRow2] (by decide)

/-- Claim C6: the schema selector and the bloom filter selector are total
over the five signable announcement types and fail with
InvalidAnnouncementTypeError for every other discriminant, including
Tombstone = 0, never returning a default schema. -/
theorem schema_selector_totality :
    (∀ t : Nat, t = 1 ∨ t = 2 ∨ t = 3 ∨ t = 4 ∨ t = 5 →
      (∃ s, getSchemaFor t = Except.ok s) ∧
      (∃ c, getBloomFilterOptionsFor t = Except.ok c)) ∧
    (∀ t : Nat, ¬(t = 1 ∨ t = 2 ∨ t = 3 ∨ t = 4 ∨ t = 5) →
      getSchemaFor t = Except.error (BatchError.invalidAnnouncementType t) ∧
      getBloomFilterOptionsFor t = Except.error (BatchError.invalidAnnouncementType t)) := by
  constructor
  · rintro t (rfl | rfl | rfl | rfl | rfl) <;> exact ⟨⟨_, rfl⟩, ⟨_, rfl⟩⟩
  · intro t h
    push_neg at h
    rcases h with ⟨h1, h2, h3, h4, h5⟩
    constructor <;> simp [getSchemaFor, getBloomFilterOptionsFor, h1, h2, h3, h4, h5]

/-- Claim C6 witness: the selectors succeed at type 2 and fail at 0. -/
theorem schema_selector_totality_witness :
    ((∃ s, getSchemaFor 2 = Except.ok s) ∧
      (∃ c, getBloomFilterOptionsFor 2 = Except.ok c)) ∧
    (getSchemaFor 0 = Except.error (BatchError.invalidAnnouncementType 0) ∧
      getBloomFilterOptionsFor 0 = Except.error (BatchError.invalidAnnouncementType 0)) :=
  ⟨schema_selector_totality.1 2 (by decide), schema_selector_totality.2 0 (by decide)⟩

/-- Claim C7: includes answers by OR-ing the bloom filter blocks of the
column, and a value actually present in an indexed column is always
reported as included (no false negatives); absent values may still hit
the noise of a block. -/
theorem includes_no_false_negatives :
    (∀ (bloomFilterData : String → List BloomFilterData) (column item : String),
      includes bloomFilterData column item = true ↔
        ∃ d ∈ bloomFilterData column, d.sbbf.check item = true) ∧
    (∀ (groups : List (List SignedAnnouncement)) (cols : List String)
       (noise : String → Bool) (c : String) (row : SignedAnnouncement) (v : String),
      row ∈ groups.flatten → c ∈ cols → columnValue row c = some v →
      includes (buildFilters groups cols noise) c v = true) := by
  constructor
  · intro bloomFilterData column item
    simp [includes, List.any_eq_true]
  · intro groups cols noise c row v hrow hc hv
    rcases List.mem_flatten.mp hrow with ⟨g, hg, hrowg⟩
    have hins : v ∈ g.filterMap (fun r => columnValue r c) :=
      List.mem_filterMap.mpr ⟨row, hrowg, hv⟩
    simp only [includes, buildFilters, if_pos hc, List.any_eq_true]
    refine ⟨{ sbbf := { inserted := g.filterMap (fun r => columnValue r c), noise := noise },
              columnName := c, rowGroupIndex := 0 }, List.mem_map_of_mem _ hg, ?_⟩
    simp [SBBF.check, hins]

/-- Claim C7 witness: a value present in the second row group of an
indexed column is reported as included. -/
theorem includes_no_false_negatives_witness :
    includes (buildFilters [[sampleBroadcastRow], [sampleBroadcastRow2]] ["fromId"]
        (fun _ => false)) "fromId" "2" = true :=
  includes_no_false_negatives.2 [[sampleBroadcastRow], [sampleBroadcastRow2]] ["fromId"]
    (fun _ => false) "fromId" sampleBroadcastRow2 "2" (by decide) (by decide) rfl

/-- Claim C8: isSignedAnnouncement returns true exactly when the value is
a record whose signature field matches the case-insensitive signature
pattern 0x followed by 130 hexadecimal digits and whose payload passes
structural announcement validation; a missing or ill-formed signature
makes it return false regardless of the payload. -/
theorem isSignedAnnouncement_spec :
    (∀ obj : JSValue,
      (isSignedAnnouncement obj = Except.ok true ↔
        (isRecord obj = true ∧ isValidSignature (getField obj "signature") = true ∧
          isAnnouncement obj = Except.ok true)) ∧
      (isValidSignature (getField obj "signature") = false →
        isSignedAnnouncement obj = Except.ok false)) ∧
    (∀ s : String, matchesSignatureRegex s = true ↔
      ∃ x rest, s.data = '0' :: x :: rest ∧ (x = 'x' ∨ x = 'X') ∧
        rest.length = 130 ∧
        ∀ ch ∈ rest,
          ('0' ≤ ch ∧ ch ≤ '9') ∨ ('a' ≤ ch ∧ ch ≤ 'f') ∨ ('A' ≤ ch ∧ ch ≤ 'F')) := by
  constructor
  · intro obj
    constructor
    · cases hrec : isRecord obj
      · simp [isSignedAnnouncement, hrec]
      · cases hsig : isValidSignature (getField obj "signature")
        · simp [isSignedAnnouncement, hrec, hsig]
        · simp [isSignedAnnouncement, hrec, hsig]
    · intro hsig
      cases hrec : isRecord obj
      · simp [isSignedAnnouncement, hrec]
      · simp [isSignedAnnouncement, hrec, hsig]
  · intro s
    rcases hd : s.data with _ | ⟨c0, _ | ⟨c1, rest⟩⟩
    · simp [matchesSignatureRegex, hd]
    · simp [matchesSignatureRegex, hd]
    · simp only [matchesSignatureRegex, hd, Bool.and_eq_true, Bool.or_eq_true, beq_iff_eq,
        List.all_eq_true, List.cons.injEq]
      constructor
      · rintro ⟨⟨⟨h0, hx⟩, hlen⟩, hhex⟩
        subst h0
        refine ⟨c1, rest, ⟨rfl, rfl, rfl⟩, hx, by simpa using hlen, ?_⟩
        intro ch hch
        have := hhex ch hch
        simp only [isHexDigit, Bool.or_eq_true, Bool.and_eq_true, decide_eq_true_iff] at this ⊢
        tauto
      · rintro ⟨x, rest0, ⟨h0, hx0, hr0⟩, hx, hlen, hhex⟩
        subst h0
        subst hx0
        subst hr0
        refine ⟨⟨⟨rfl, hx⟩, by simpa using hlen⟩, ?_⟩
        intro ch hch
        have := hhex ch hch
        simp only [isHexDigit, Bool.or_eq_true, Bool.and_eq_true, decide_eq_true_iff] at this ⊢
        tauto

/-- Claim C8 witness: a record with no signature field is rejected before
its payload is looked at. -/
theorem isSignedAnnouncement_spec_witness :
    isValidSignature (getField c8NoSignature "signature") = false ∧
    isSignedAnnouncement c8NoSignature = Except.ok false :=
  ⟨rfl, (isSignedAnnouncement_spec.1 c8NoSignature).2 rfl⟩

/-- Claim C9 counterexample: for the out-of-set discriminant 7 the
dispatch validator returns the plain boolean false instead of failing
with an unknown announcement type error, and the Broadcast validator
returns the plain boolean false on a malformed record instead of a
descriptive error naming the failing field. -/
theorem isAnnouncement_unknown_type_counterexample :
    isAnnouncement c9UnknownType = Except.ok false ∧
    isBroadcastAnnouncement c9BadBroadcast = false := by
  constructor
  · rfl
  · rfl

/-- Claim C9 amended: the non-Tombstone per-variant validators report
malformed input by returning false with no descriptive error naming the
failing field; only the Tombstone validator throws descriptive
AnnouncementError messages; and for every discriminant outside the
enumerated set the dispatch validator isAnnouncement returns false
rather than failing with an unknown announcement type error. -/
theorem isAnnouncement_unknown_type_returns_false :
    (∀ obj : JSValue, isAnnouncementType (getField obj "announcementType") = false →
      isAnnouncement obj = Except.ok false) ∧
    isTombstoneAnnouncement c9BadTombstone =
      Except.error "Announcement has invalid fromId" ∧
    isBroadcastAnnouncement c9BadBroadcast = false := by
  refine ⟨?_, rfl, rfl⟩
  intro obj h
  cases hrec : isRecord obj
  · simp [isAnnouncement, hrec]
  · simp [isAnnouncement, hrec, h]

/-- Claim C9 witness: the amended statement applied at the concrete
discriminant 7. -/
theorem isAnnouncement_unknown_type_returns_false_witness :
    isAnnouncementType (getField c9UnknownType "announcementType") = false ∧
    isAnnouncement c9UnknownType = Except.ok false :=
  ⟨rfl, isAnnouncement_unknown_type_returns_false.1 c9UnknownType rfl⟩

/-- Claim C10: the emoji pattern requires at least one code point, so
emoji validation fails on the empty string and a Reaction whose emoji is
empty is rejected no matter what its other fields hold. -/
theorem reaction_empty_emoji_rejected :
    (∀ obj : JSValue, getField obj "emoji" = JSValue.str "" →
      isReactionAnnouncement obj = false) ∧
    isValidEmoji (JSValue.str "") = false := by
  constructor
  · intro obj h
    have he : isValidEmoji (JSValue.str "") = false := by decide
    unfold isReactionAnnouncement
    rw [h, he]
    simp
  · decide

/-- Claim C10 witness: a Reaction record whose other fields all validate
but whose emoji is the empty string is rejected. -/
theorem reaction_empty_emoji_rejected_witness :
    getField c10EmptyEmojiReaction "emoji" = JSValue.str "" ∧
    isDSNPUserId (getField c10EmptyEmojiReaction "fromId") = true ∧
    isDSNPAnnouncementURI (getField c10EmptyEmojiReaction "inReplyTo") = true ∧
    isReactionAnnouncement c10EmptyEmojiReaction = false :=
  ⟨rfl, by decide, by decide,
    reaction_empty_emoji_rejected.1 c10EmptyEmojiReaction rfl⟩
